import Mathlib

/-!
Shallow embedding of the valuation core of the stock-fundamental-analysis
tool: the DCF engine (`src/lib/valuation/dcf.ts`) and the scenario
derivation (`src/lib/valuation/scenario-presets.ts`).

JavaScript numbers are modelled as rationals (ℚ); thrown `Error`s are
modelled with `Except`.  The single transcendental operation of the core,
`Math.pow` inside `computeRevenueCAGR`, is abstracted as a parameter
`rpow : ℚ → ℚ → ℚ`; no claim below depends on its value.
-/

namespace StockValuation

/-- `ScenarioInput` from `src/types/valuation.ts`: one scenario's DCF
assumptions, all rates as decimal fractions. -/
structure ScenarioInput where
  revenueGrowthYears1to5 : ℚ
  revenueGrowthYears6to10 : ℚ
  operatingMarginTarget : ℚ
  taxRate : ℚ
  reinvestmentRate : ℚ
  wacc : ℚ
  terminalGrowth : ℚ
deriving DecidableEq

/-- `DcfInput` from `src/lib/valuation/dcf.ts`. -/
structure DcfInput where
  currentRevenue : ℚ
  netDebt : ℚ
  sharesOutstanding : ℚ
  currentPrice : ℚ
  mosPercent : ℚ
  scenario : ScenarioInput
deriving DecidableEq

/-- `ScenarioResult` from `src/types/valuation.ts`. -/
structure ScenarioResult where
  enterpriseValue : ℚ
  equityValue : ℚ
  fairValuePerShare : ℚ
  fairValueAfterMos : ℚ
  upsideVsPricePercent : ℚ
deriving DecidableEq

/-- The `Error` values thrown by the DCF engine.  `outOfRange` carries the
field label and the bounds interpolated into the thrown message. -/
inductive DcfError where
  | waccNotAboveTerminal : DcfError
  | outOfRange (label : String) (lo hi : ℚ) : DcfError
  | mustBePositive : DcfError
deriving DecidableEq

/-- The `bounded` array of `validateScenarioInput`
(`src/lib/valuation/dcf.ts`, lines 34-42): value, min, max, label. -/
def boundedChecks (s : ScenarioInput) : List (ℚ × ℚ × ℚ × String) :=
  [ (s.revenueGrowthYears1to5, -0.5, 0.6, "Revenue growth years 1-5")
  , (s.revenueGrowthYears6to10, -0.5, 0.4, "Revenue growth years 6-10")
  , (s.operatingMarginTarget, 0, 0.8, "Operating margin target")
  , (s.taxRate, 0, 0.6, "Tax rate")
  , (s.reinvestmentRate, 0, 0.9, "Reinvestment rate")
  , (s.wacc, 0.03, 0.3, "WACC")
  , (s.terminalGrowth, -0.02, 0.06, "Terminal growth") ]

/-- The `for` loop of `validateScenarioInput`: throw on the first entry
whose value lies outside `[min, max]`. -/
def checkBounds : List (ℚ × ℚ × ℚ × String) → Except DcfError Unit
  | [] => .ok ()
  | (value, lo, hi, label) :: rest =>
    if value < lo ∨ value > hi then .error (.outOfRange label lo hi)
    else checkBounds rest

/-- `validateScenarioInput` (`src/lib/valuation/dcf.ts`, lines 29-49). -/
def validateScenarioInput (s : ScenarioInput) : Except DcfError Unit :=
  if s.wacc ≤ s.terminalGrowth then .error .waccNotAboveTerminal
  else checkBounds (boundedChecks s)

/-- One iteration of the 10-year projection loop of `runDcf`
(`src/lib/valuation/dcf.ts`, lines 86-98).  State: (revenue,
discountedFcfSum). -/
def dcfStep (s : ScenarioInput) (st : ℚ × ℚ) (year : ℕ) : ℚ × ℚ :=
  let growth := if year ≤ 5 then s.revenueGrowthYears1to5 else s.revenueGrowthYears6to10
  let revenue := st.1 * (1 + growth)
  let ebit := revenue * s.operatingMarginTarget
  let nopat := ebit * (1 - s.taxRate)
  let fcf := nopat * (1 - s.reinvestmentRate)
  let discountFactor := (1 + s.wacc) ^ year
  (revenue, st.2 + fcf / discountFactor)

/-- The loop counter values of the projection loop: `year = 1..10`. -/
def dcfYears : List ℕ := [1, 2, 3, 4, 5, 6, 7, 8, 9, 10]

/-- `runDcf` (`src/lib/valuation/dcf.ts`, lines 66-128). -/
def runDcf (input : DcfInput) : Except DcfError ScenarioResult :=
  match validateScenarioInput input.scenario with
  | .error e => .error e
  | .ok _ =>
    if input.currentRevenue ≤ 0 ∨ input.sharesOutstanding ≤ 0 ∨ input.currentPrice ≤ 0 then
      .error .mustBePositive
    else
      let s := input.scenario
      let proj := dcfYears.foldl (dcfStep s) (input.currentRevenue, 0)
      let revenue := proj.1
      let discountedFcfSum := proj.2
      let terminalYearEbit := revenue * s.operatingMarginTarget
      let terminalYearNopat := terminalYearEbit * (1 - s.taxRate)
      let terminalYearFcf := terminalYearNopat * (1 - s.reinvestmentRate)
      let terminalFcf := terminalYearFcf * (1 + s.terminalGrowth)
      let terminalValue := terminalFcf / (s.wacc - s.terminalGrowth)
      let discountedTerminal := terminalValue / (1 + s.wacc) ^ 10
      let enterpriseValue := discountedFcfSum + discountedTerminal
      let equityValue := enterpriseValue - input.netDebt
      let fairValuePerShare := equityValue / input.sharesOutstanding
      let fairValueAfterMos := fairValuePerShare * (1 - input.mosPercent / 100)
      let upsideVsPricePercent := (fairValueAfterMos - input.currentPrice) / input.currentPrice * 100
      .ok { enterpriseValue := enterpriseValue
          , equityValue := equityValue
          , fairValuePerShare := fairValuePerShare
          , fairValueAfterMos := fairValueAfterMos
          , upsideVsPricePercent := upsideVsPricePercent }

/-- The seven closed ranges of section 3 of the spec, spelled out as a
predicate on `ScenarioInput`. -/
def scenarioInRange (s : ScenarioInput) : Prop :=
  -0.5 ≤ s.revenueGrowthYears1to5 ∧ s.revenueGrowthYears1to5 ≤ 0.6 ∧
  -0.5 ≤ s.revenueGrowthYears6to10 ∧ s.revenueGrowthYears6to10 ≤ 0.4 ∧
  0 ≤ s.operatingMarginTarget ∧ s.operatingMarginTarget ≤ 0.8 ∧
  0 ≤ s.taxRate ∧ s.taxRate ≤ 0.6 ∧
  0 ≤ s.reinvestmentRate ∧ s.reinvestmentRate ≤ 0.9 ∧
  0.03 ≤ s.wacc ∧ s.wacc ≤ 0.3 ∧
  -0.02 ≤ s.terminalGrowth ∧ s.terminalGrowth ≤ 0.06

instance (s : ScenarioInput) : Decidable (scenarioInRange s) := by
  unfold scenarioInRange; infer_instance

/-! ## Scenario derivation (`src/lib/valuation/scenario-presets.ts`) -/

/-- `AnnualFundamentalPoint` from `src/types/fundamentals.ts`. -/
structure AnnualFundamentalPoint where
  year : ℤ
  revenue : ℚ
  ebit : ℚ
  netIncome : ℚ
  fcf : ℚ
  operatingMargin : ℚ
  netMargin : ℚ
deriving DecidableEq

/-- `FundamentalsResponse` from `src/types/fundamentals.ts`, restricted to
the `annual` array, the only field `getCompanyScenarios` reads (the source
record also carries `ticker`, `currency` and `ratios`). - ordered
newest-first. -/
structure FundamentalsResponse where
  annual : List AnnualFundamentalPoint
deriving DecidableEq

/-- `AnalystEstimates` from `src/types/valuation.ts`: every field nullable. -/
structure AnalystEstimates where
  revenueGrowthNextYear : Option ℚ
  revenueGrowth5Year : Option ℚ
  earningsGrowthNextYear : Option ℚ
  targetMeanPrice : Option ℚ
  numberOfAnalysts : Option ℚ
  operatingMargins : Option ℚ
  revenueGrowthTTM : Option ℚ
  freeCashflow : Option ℚ
  totalRevenue : Option ℚ
deriving DecidableEq

/-- `ScenariosInput` from `src/types/valuation.ts`: the bull/base/bear set. -/
structure ScenariosInput where
  bull : ScenarioInput
  base : ScenarioInput
  bear : ScenarioInput
deriving DecidableEq

/-- `clamp` (`src/lib/valuation/scenario-presets.ts`, lines 51-53):
`Math.min(max, Math.max(min, value))`. -/
def clamp (value lo hi : ℚ) : ℚ := min hi (max lo value)

/-- `computeRevenueCAGR` (`src/lib/valuation/scenario-presets.ts`, lines
61-72), with `Math.pow` abstracted as `rpow`.  `annual[0]` and
`annual[annual.length - 1]` are modelled by `head?`/`getLast?`; the
`none` branch is unreachable because of the length guard. -/
def computeRevenueCAGR (rpow : ℚ → ℚ → ℚ) (annual : List AnnualFundamentalPoint) :
    Option ℚ :=
  if annual.length < 2 then none
  else
    match annual.head?, annual.getLast? with
    | some first, some last =>
      let endRevenue := first.revenue
      let startRevenue := last.revenue
      if startRevenue ≤ 0 ∨ endRevenue ≤ 0 then none
      else
        let years : ℚ := ((annual.length - 1 : ℕ) : ℚ)
        some (rpow (endRevenue / startRevenue) (1 / years) - 1)
    | _, _ => none

/-- Variant of `computeRevenueCAGR` in which an out-of-bounds element
access (a JavaScript `TypeError` on reading `.revenue` of `undefined`)
is an explicit error, used to state that the guard makes it unreachable. -/
def computeRevenueCAGRE (rpow : ℚ → ℚ → ℚ) (annual : List AnnualFundamentalPoint) :
    Except String (Option ℚ) :=
  if annual.length < 2 then .ok none
  else
    match annual.head?, annual.getLast? with
    | some first, some last =>
      let endRevenue := first.revenue
      let startRevenue := last.revenue
      if startRevenue ≤ 0 ∨ endRevenue ≤ 0 then .ok none
      else
        let years : ℚ := ((annual.length - 1 : ℕ) : ℚ)
        .ok (some (rpow (endRevenue / startRevenue) (1 / years) - 1))
    | _, _ => .error "TypeError: cannot read properties of undefined"

/-- `deriveEffectiveTaxRate` (`src/lib/valuation/scenario-presets.ts`,
lines 81-88): first point newest-first with `ebit > 0` and
`netIncome > 0`. -/
def deriveEffectiveTaxRate : List AnnualFundamentalPoint → Option ℚ
  | [] => none
  | point :: rest =>
    if point.ebit > 0 ∧ point.netIncome > 0 then
      some (clamp (1 - point.netIncome / point.ebit) 0.1 0.4)
    else deriveEffectiveTaxRate rest

/-- The historical-data `for` loop of `deriveReinvestmentRate`
(`src/lib/valuation/scenario-presets.ts`, lines 117-122). -/
def historicalReinvestmentRate : List AnnualFundamentalPoint → Option ℚ
  | [] => none
  | point :: rest =>
    let nopat := point.ebit *
      (1 - (if point.ebit > 0 ∧ point.netIncome > 0 then 1 - point.netIncome / point.ebit else 0.22))
    if nopat > 0 ∧ point.fcf ≠ 0 then
      some (clamp (1 - point.fcf / nopat) 0.05 0.70)
    else historicalReinvestmentRate rest

/-- `deriveReinvestmentRate` (`src/lib/valuation/scenario-presets.ts`,
lines 101-124). -/
def deriveReinvestmentRate (annual : List AnnualFundamentalPoint)
    (estimates : AnalystEstimates) : Option ℚ :=
  match estimates.freeCashflow, estimates.totalRevenue, estimates.operatingMargins with
  | some freeCashflow, some totalRevenue, some operatingMargins =>
    let currentEbit := totalRevenue * operatingMargins
    let effectiveTax := (deriveEffectiveTaxRate annual).getD 0.22
    let currentNopat := currentEbit * (1 - effectiveTax)
    if currentNopat > 0 then some (clamp (1 - freeCashflow / currentNopat) 0.05 0.70)
    else historicalReinvestmentRate annual
  | _, _, _ => historicalReinvestmentRate annual

/-- The `baseGrowthY1to5` fallback chain of `getCompanyScenarios`
(`src/lib/valuation/scenario-presets.ts`, lines 149-154), with the
already-computed CAGR passed in. -/
def baseGrowthY1to5 (cagr : Option ℚ) (estimates : AnalystEstimates) : ℚ :=
  (((estimates.revenueGrowth5Year.orElse
      fun _ => estimates.revenueGrowthNextYear).orElse
      fun _ => cagr).orElse
      fun _ => estimates.revenueGrowthTTM).getD 0.05

/-- `baseGrowthY6to10` (`src/lib/valuation/scenario-presets.ts`, line 157). -/
def baseGrowthY6to10 (cagr : Option ℚ) (estimates : AnalystEstimates) : ℚ :=
  baseGrowthY1to5 cagr estimates * 0.6

/-- The `baseMargin` fallback chain of `getCompanyScenarios`
(`src/lib/valuation/scenario-presets.ts`, lines 160-164). -/
def baseMargin (annual : List AnnualFundamentalPoint)
    (estimates : AnalystEstimates) : ℚ :=
  let latestMargin := annual.head?.map (fun p => p.operatingMargin)
  let avgMargin3yr : Option ℚ :=
    if annual.length ≥ 3 then
      some ((annual.take 3).foldl (fun sum p => sum + p.operatingMargin) 0 / 3)
    else none
  ((estimates.operatingMargins.orElse fun _ => latestMargin).orElse
      fun _ => avgMargin3yr).getD 0.18

/-- `baseWacc` (`src/lib/valuation/scenario-presets.ts`, line 171). -/
def baseWacc : ℚ := 0.095

/-- `baseTerminalGrowth` (`src/lib/valuation/scenario-presets.ts`, line 172). -/
def baseTerminalGrowth : ℚ := 0.025

/-- The `base` scenario of `getCompanyScenarios`
(`src/lib/valuation/scenario-presets.ts`, lines 175-183). -/
def companyBase (cagr : Option ℚ) (fundamentals : FundamentalsResponse)
    (estimates : AnalystEstimates) : ScenarioInput :=
  { revenueGrowthYears1to5 := clamp (baseGrowthY1to5 cagr estimates) (-0.5) 0.6
  , revenueGrowthYears6to10 := clamp (baseGrowthY6to10 cagr estimates) (-0.5) 0.4
  , operatingMarginTarget := clamp (baseMargin fundamentals.annual estimates) 0 0.8
  , taxRate := clamp ((deriveEffectiveTaxRate fundamentals.annual).getD 0.22) 0 0.6
  , reinvestmentRate := clamp ((deriveReinvestmentRate fundamentals.annual estimates).getD 0.30) 0 0.9
  , wacc := baseWacc
  , terminalGrowth := baseTerminalGrowth }

/-- The `bull` scenario before the terminal-growth repair
(`src/lib/valuation/scenario-presets.ts`, lines 186-194). -/
def companyBull (base : ScenarioInput) : ScenarioInput :=
  { revenueGrowthYears1to5 := clamp (base.revenueGrowthYears1to5 * 1.25) (-0.5) 0.6
  , revenueGrowthYears6to10 := clamp (base.revenueGrowthYears6to10 * 1.25) (-0.5) 0.4
  , operatingMarginTarget := clamp (base.operatingMarginTarget + 0.03) 0 0.8
  , taxRate := clamp (base.taxRate - 0.02) 0 0.6
  , reinvestmentRate := clamp (base.reinvestmentRate - 0.05) 0 0.9
  , wacc := clamp (base.wacc - 0.01) 0.03 0.3
  , terminalGrowth := clamp (base.terminalGrowth + 0.005) (-0.02) 0.06 }

/-- The `bear` scenario before the terminal-growth repair
(`src/lib/valuation/scenario-presets.ts`, lines 197-205). -/
def companyBear (base : ScenarioInput) : ScenarioInput :=
  { revenueGrowthYears1to5 := clamp (base.revenueGrowthYears1to5 * 0.5) (-0.5) 0.6
  , revenueGrowthYears6to10 := clamp (base.revenueGrowthYears6to10 * 0.4) (-0.5) 0.4
  , operatingMarginTarget := clamp (base.operatingMarginTarget - 0.04) 0 0.8
  , taxRate := clamp (base.taxRate + 0.03) 0 0.6
  , reinvestmentRate := clamp (base.reinvestmentRate + 0.10) 0 0.9
  , wacc := clamp (base.wacc + 0.015) 0.03 0.3
  , terminalGrowth := clamp (base.terminalGrowth - 0.005) (-0.02) 0.06 }

/-- The post-adjustment repair (`src/lib/valuation/scenario-presets.ts`,
lines 208-213): if `wacc <= terminalGrowth`, set
`terminalGrowth = wacc - 0.01`. -/
def repairTerminalGrowth (s : ScenarioInput) : ScenarioInput :=
  if s.wacc ≤ s.terminalGrowth then { s with terminalGrowth := s.wacc - 0.01 } else s

/-- Assembly of `getCompanyScenarios` from an already-computed CAGR. -/
def assembleCompanyScenarios (cagr : Option ℚ) (fundamentals : FundamentalsResponse)
    (estimates : AnalystEstimates) : ScenariosInput :=
  let base := companyBase cagr fundamentals estimates
  { bull := repairTerminalGrowth (companyBull base)
  , base := base
  , bear := repairTerminalGrowth (companyBear base) }

/-- `getCompanyScenarios` (`src/lib/valuation/scenario-presets.ts`,
lines 142-216). -/
def getCompanyScenarios (rpow : ℚ → ℚ → ℚ) (fundamentals : FundamentalsResponse)
    (estimates : AnalystEstimates) : ScenariosInput :=
  assembleCompanyScenarios (computeRevenueCAGR rpow fundamentals.annual)
    fundamentals estimates

/-- `getCompanyScenarios` with the element accesses of
`computeRevenueCAGR` modelled fallibly (`computeRevenueCAGRE`): an
uncaught JavaScript exception anywhere in the derivation would surface
here as `.error`. -/
def getCompanyScenariosE (rpow : ℚ → ℚ → ℚ) (fundamentals : FundamentalsResponse)
    (estimates : AnalystEstimates) : Except String ScenariosInput :=
  (computeRevenueCAGRE rpow fundamentals.annual).map
    fun cagr => assembleCompanyScenarios cagr fundamentals estimates

/-! ## Reference computation for the DCF engine (from the spec's words) -/

/-- Reference (spec, section 4.1 step 2): revenue for year `y` is
`currentRevenue` compounded by `(1 + revenueGrowthYears1to5)` for years
1-5 and by `(1 + revenueGrowthYears6to10)` for years 6-10. -/
def referenceRevenue (i : DcfInput) (y : ℕ) : ℚ :=
  i.currentRevenue * (1 + i.scenario.revenueGrowthYears1to5) ^ min y 5
    * (1 + i.scenario.revenueGrowthYears6to10) ^ (y - 5)

/-- Reference: year `y`'s FCF, `revenue * operatingMarginTarget *
(1 - taxRate) * (1 - reinvestmentRate)`, discounted by `(1 + wacc) ^ y`. -/
def referenceDiscountedFcf (i : DcfInput) (y : ℕ) : ℚ :=
  referenceRevenue i y * i.scenario.operatingMarginTarget * (1 - i.scenario.taxRate)
    * (1 - i.scenario.reinvestmentRate) / (1 + i.scenario.wacc) ^ y

/-- Reference: the sum of the 10 discounted FCFs. -/
def referenceDiscountedFcfSum (i : DcfInput) : ℚ :=
  ((List.range 10).map fun k => referenceDiscountedFcf i (k + 1)).sum

/-- Reference (spec, section 4.1 step 3): the year-10 FCF grown once by
`(1 + terminalGrowth)`, divided by `(wacc - terminalGrowth)`, discounted
by `(1 + wacc) ^ 10`. -/
def referenceDiscountedTerminal (i : DcfInput) : ℚ :=
  referenceRevenue i 10 * i.scenario.operatingMarginTarget * (1 - i.scenario.taxRate)
    * (1 - i.scenario.reinvestmentRate) * (1 + i.scenario.terminalGrowth)
    / (i.scenario.wacc - i.scenario.terminalGrowth) / (1 + i.scenario.wacc) ^ 10

/-- Reference result assembled per spec section 4.1 steps 4-8. -/
def referenceResult (i : DcfInput) : ScenarioResult :=
  let enterpriseValue := referenceDiscountedFcfSum i + referenceDiscountedTerminal i
  let equityValue := enterpriseValue - i.netDebt
  let fairValuePerShare := equityValue / i.sharesOutstanding
  let fairValueAfterMos := fairValuePerShare * (1 - i.mosPercent / 100)
  { enterpriseValue := enterpriseValue
  , equityValue := equityValue
  , fairValuePerShare := fairValuePerShare
  , fairValueAfterMos := fairValueAfterMos
  , upsideVsPricePercent := (fairValueAfterMos - i.currentPrice) / i.currentPrice * 100 }

/-- Closed form for the revenue accumulator of the projection loop. -/
theorem dcfLoop_fst (s : ScenarioInput) (r0 : ℚ) :
    (dcfYears.foldl (dcfStep s) (r0, 0)).1 =
      r0 * (1 + s.revenueGrowthYears1to5) ^ 5 * (1 + s.revenueGrowthYears6to10) ^ 5 := by
  simp only [dcfYears, List.foldl, dcfStep]
  norm_num
  ring

/-- Closed form for the discounted-FCF accumulator of the projection loop. -/
theorem dcfLoop_snd (s : ScenarioInput) (r0 : ℚ) :
    (dcfYears.foldl (dcfStep s) (r0, 0)).2 =
      ((List.range 10).map fun k =>
        r0 * (1 + s.revenueGrowthYears1to5) ^ min (k + 1) 5
          * (1 + s.revenueGrowthYears6to10) ^ (k + 1 - 5)
          * s.operatingMarginTarget * (1 - s.taxRate) * (1 - s.reinvestmentRate)
          / (1 + s.wacc) ^ (k + 1)).sum := by
  simp only [dcfYears, List.foldl, dcfStep, List.range, List.range.loop, List.map, List.sum]
  norm_num
  ring

/-- A concrete, in-range valuation input used by the witnesses below. -/
def testInput : DcfInput :=
  { currentRevenue := 100, netDebt := 20, sharesOutstanding := 15, currentPrice := 190
  , mosPercent := 25
  , scenario :=
    { revenueGrowthYears1to5 := 0.08, revenueGrowthYears6to10 := 0.05
    , operatingMarginTarget := 0.2, taxRate := 0.22, reinvestmentRate := 0.35
    , wacc := 0.10, terminalGrowth := 0.025 } }

/-- Shared evaluation lemma: on validated scenarios and positive market
inputs, `runDcf` returns the reference record. -/
theorem runDcf_eval (i : DcfInput)
    (hv : validateScenarioInput i.scenario = .ok ())
    (hr : 0 < i.currentRevenue) (hs : 0 < i.sharesOutstanding)
    (hp : 0 < i.currentPrice) :
    runDcf i = .ok (referenceResult i) := by
  have hcond : ¬(i.currentRevenue ≤ 0 ∨ i.sharesOutstanding ≤ 0 ∨ i.currentPrice ≤ 0) := by
    push_neg
    exact ⟨hr, hs, hp⟩
  unfold runDcf
  rw [hv, if_neg hcond]
  have h1 := dcfLoop_fst i.scenario i.currentRevenue
  have h2 := dcfLoop_snd i.scenario i.currentRevenue
  simp only [referenceResult, referenceDiscountedFcfSum, referenceDiscountedFcf,
    referenceRevenue, referenceDiscountedTerminal, h1, h2, Except.ok.injEq,
    ScenarioResult.mk.injEq]
  refine ⟨?_, ?_, ?_, ?_, ?_⟩ <;> (norm_num; try ring)

/-- C1: for every `DcfInput` whose scenario passes `validateScenarioInput`
and with positive `currentRevenue`, `sharesOutstanding` and
`currentPrice`, `runDcf` returns exactly the reference computation:
two-phase compounded revenue, per-year discounted FCF
`revenue * margin * (1 - tax) * (1 - reinvestment) / (1 + wacc) ^ year`,
`enterpriseValue` = the sum of the 10 discounted FCFs plus the discounted
terminal value, `equityValue = enterpriseValue - netDebt`,
`fairValuePerShare = equityValue / sharesOutstanding`,
`fairValueAfterMos = fairValuePerShare * (1 - mosPercent / 100)` and
`upsideVsPricePercent = (fairValueAfterMos - currentPrice) / currentPrice * 100`. -/
theorem runDcf_matches_reference (i : DcfInput)
    (hv : validateScenarioInput i.scenario = .ok ())
    (hr : 0 < i.currentRevenue) (hs : 0 < i.sharesOutstanding)
    (hp : 0 < i.currentPrice) :
    runDcf i = .ok (referenceResult i) :=
  runDcf_eval i hv hr hs hp

/-- Witness for C1 at a concrete input. -/
theorem runDcf_matches_reference_witness :
    validateScenarioInput testInput.scenario = .ok () ∧
    0 < testInput.currentRevenue ∧ 0 < testInput.sharesOutstanding ∧
    0 < testInput.currentPrice ∧
    runDcf testInput = .ok (referenceResult testInput) :=
  have hv : validateScenarioInput testInput.scenario = .ok () := by
    norm_num [validateScenarioInput, boundedChecks, checkBounds, testInput]
  ⟨hv, by norm_num [testInput], by norm_num [testInput], by norm_num [testInput],
   runDcf_matches_reference testInput hv (by norm_num [testInput])
     (by norm_num [testInput]) (by norm_num [testInput])⟩

/-! ## Validation (claim C3) -/

/-- `checkBounds` succeeds iff every listed value lies inside its bounds. -/
theorem checkBounds_ok_iff (l : List (ℚ × ℚ × ℚ × String)) :
    checkBounds l = .ok () ↔ ∀ e ∈ l, ¬(e.1 < e.2.1 ∨ e.1 > e.2.2.1) := by
  induction l with
  | nil => simp [checkBounds]
  | cons head tail ih =>
    obtain ⟨v, lo, hi, label⟩ := head
    simp only [checkBounds]
    by_cases h : v < lo ∨ v > hi
    · rw [if_pos h]
      constructor
      · intro hfalse
        exact absurd hfalse (by simp)
      · intro hall
        exact absurd h (hall (v, lo, hi, label) (List.mem_cons.mpr (Or.inl rfl)))
    · rw [if_neg h, ih]
      constructor
      · intro htail e he
        rcases List.mem_cons.mp he with rfl | hm
        · exact h
        · exact htail e hm
      · intro hall e he
        exact hall e (List.mem_cons.mpr (Or.inr he))

/-- When `checkBounds` fails, it fails with an out-of-range error whose
label and bounds belong to a violated entry of the list. -/
theorem checkBounds_error_spec (l : List (ℚ × ℚ × ℚ × String))
    (h : checkBounds l ≠ .ok ()) :
    ∃ v lo hi label, (v, lo, hi, label) ∈ l ∧ (v < lo ∨ v > hi) ∧
      checkBounds l = .error (.outOfRange label lo hi) := by
  induction l with
  | nil => simp [checkBounds] at h
  | cons head tail ih =>
    obtain ⟨v, lo, hi, label⟩ := head
    by_cases hv : v < lo ∨ v > hi
    · exact ⟨v, lo, hi, label, by simp, hv, by simp [checkBounds, hv]⟩
    · have h2 : checkBounds tail ≠ .ok () := by
        simpa [checkBounds, hv] using h
      obtain ⟨v2, lo2, hi2, label2, hmem, hviol, heq⟩ := ih h2
      exact ⟨v2, lo2, hi2, label2, by simp [hmem], hviol, by simp [checkBounds, hv, heq]⟩

/-- The in-range predicate of section 3 coincides with the bounds list of
`validateScenarioInput`. -/
theorem scenarioInRange_iff_checks (s : ScenarioInput) :
    scenarioInRange s ↔ ∀ e ∈ boundedChecks s, ¬(e.1 < e.2.1 ∨ e.1 > e.2.2.1) := by
  unfold scenarioInRange
  simp only [boundedChecks, List.forall_mem_cons]
  push_neg
  tauto

/-- Validation succeeds on any in-range scenario with `wacc > terminalGrowth`. -/
theorem validate_ok_of_inRange (s : ScenarioInput) (hin : scenarioInRange s)
    (hwt : s.terminalGrowth < s.wacc) :
    validateScenarioInput s = .ok () := by
  have hn : ¬ s.wacc ≤ s.terminalGrowth := not_le.mpr hwt
  rw [validateScenarioInput, if_neg hn, checkBounds_ok_iff]
  exact (scenarioInRange_iff_checks s).mp hin

/-- C3: `validateScenarioInput` throws the WACC/terminal-growth error
whenever `wacc <= terminalGrowth`, regardless of the other fields and
before any range check; when `wacc > terminalGrowth` it returns normally
iff all seven fields are inside their closed ranges, and otherwise throws
an out-of-range error carrying the label and bounds of a violated field. -/
theorem validateScenarioInput_spec (s : ScenarioInput) :
    (s.wacc ≤ s.terminalGrowth → validateScenarioInput s = .error .waccNotAboveTerminal) ∧
    (s.terminalGrowth < s.wacc →
      ((validateScenarioInput s = .ok ()) ↔ scenarioInRange s) ∧
      (¬ scenarioInRange s →
        ∃ v lo hi label, (v, lo, hi, label) ∈ boundedChecks s ∧ (v < lo ∨ v > hi) ∧
          validateScenarioInput s = .error (.outOfRange label lo hi))) := by
  constructor
  · intro h
    simp [validateScenarioInput, h]
  · intro h
    have hn : ¬ s.wacc ≤ s.terminalGrowth := not_le.mpr h
    have hval : validateScenarioInput s = checkBounds (boundedChecks s) := by
      simp [validateScenarioInput, hn]
    constructor
    · rw [hval, checkBounds_ok_iff, scenarioInRange_iff_checks]
    · intro hout
      have hne : checkBounds (boundedChecks s) ≠ .ok () := fun hc =>
        hout ((scenarioInRange_iff_checks s).mpr ((checkBounds_ok_iff _).mp hc))
      obtain ⟨v, lo, hi, label, hmem, hviol, heq⟩ := checkBounds_error_spec _ hne
      exact ⟨v, lo, hi, label, hmem, hviol, by rw [hval, heq]⟩

/-- A scenario violating the WACC/terminal-growth invariant (with a field
also out of range, showing the WACC check fires first). -/
def badWaccScenario : ScenarioInput :=
  { revenueGrowthYears1to5 := 0.9, revenueGrowthYears6to10 := 0.05
  , operatingMarginTarget := 0.2, taxRate := 0.22, reinvestmentRate := 0.35
  , wacc := 0.05, terminalGrowth := 0.05 }

/-- A scenario with `wacc > terminalGrowth` but an out-of-range margin. -/
def outOfRangeScenario : ScenarioInput :=
  { revenueGrowthYears1to5 := 0.08, revenueGrowthYears6to10 := 0.05
  , operatingMarginTarget := 0.9, taxRate := 0.22, reinvestmentRate := 0.35
  , wacc := 0.10, terminalGrowth := 0.025 }

/-- Witness for C3: all three branches exercised at concrete scenarios. -/
theorem validateScenarioInput_spec_witness :
    validateScenarioInput badWaccScenario = .error .waccNotAboveTerminal ∧
    validateScenarioInput testInput.scenario = .ok () ∧
    (∃ v lo hi label, (v, lo, hi, label) ∈ boundedChecks outOfRangeScenario ∧
      (v < lo ∨ v > hi) ∧
      validateScenarioInput outOfRangeScenario = .error (.outOfRange label lo hi)) :=
  ⟨(validateScenarioInput_spec badWaccScenario).1 (by norm_num [badWaccScenario]),
   ((validateScenarioInput_spec testInput.scenario).2
      (by norm_num [testInput])).1.mpr (by norm_num [scenarioInRange, testInput]),
   ((validateScenarioInput_spec outOfRangeScenario).2
      (by norm_num [outOfRangeScenario])).2
      (by norm_num [scenarioInRange, outOfRangeScenario])⟩

/-! ## Terminal value, fail-fast positivity, well-definedness, MoS (C2, C8, C9, C10) -/

/-- C2: for every `DcfInput` accepted by `runDcf`, the enterprise value is
the loop's discounted-FCF sum plus the discounted terminal value, where
the terminal value is the year-10 FCF (year-10 ending revenue
`currentRevenue * (1+g15)^5 * (1+g610)^5` times margin, `(1 - tax)` and
`(1 - reinvestment)`) grown once by `(1 + terminalGrowth)`, divided by
`(wacc - terminalGrowth)` and discounted by `(1 + wacc)^10`:
`terminalGrowth` scales revenue only, margin/tax/reinvestment stay at the
years-6-10 assumptions. -/
theorem runDcf_terminal_spec (i : DcfInput) (r : ScenarioResult)
    (h : runDcf i = .ok r) :
    r.enterpriseValue =
      (dcfYears.foldl (dcfStep i.scenario) (i.currentRevenue, 0)).2 +
        i.currentRevenue * (1 + i.scenario.revenueGrowthYears1to5) ^ 5
          * (1 + i.scenario.revenueGrowthYears6to10) ^ 5
          * i.scenario.operatingMarginTarget * (1 - i.scenario.taxRate)
          * (1 - i.scenario.reinvestmentRate) * (1 + i.scenario.terminalGrowth)
          / (i.scenario.wacc - i.scenario.terminalGrowth)
          / (1 + i.scenario.wacc) ^ 10 := by
  unfold runDcf at h
  cases hval : validateScenarioInput i.scenario with
  | error e =>
    rw [hval] at h
    simp at h
  | ok u =>
    rw [hval] at h
    by_cases hcond : i.currentRevenue ≤ 0 ∨ i.sharesOutstanding ≤ 0 ∨ i.currentPrice ≤ 0
    · rw [if_pos hcond] at h
      simp at h
    · rw [if_neg hcond] at h
      simp only [Except.ok.injEq] at h
      rw [← h]
      simp only [dcfLoop_fst]

/-- Witness for C2 at a concrete accepted input. -/
theorem runDcf_terminal_spec_witness :
    (referenceResult testInput).enterpriseValue =
      (dcfYears.foldl (dcfStep testInput.scenario) (testInput.currentRevenue, 0)).2 +
        testInput.currentRevenue * (1 + testInput.scenario.revenueGrowthYears1to5) ^ 5
          * (1 + testInput.scenario.revenueGrowthYears6to10) ^ 5
          * testInput.scenario.operatingMarginTarget * (1 - testInput.scenario.taxRate)
          * (1 - testInput.scenario.reinvestmentRate)
          * (1 + testInput.scenario.terminalGrowth)
          / (testInput.scenario.wacc - testInput.scenario.terminalGrowth)
          / (1 + testInput.scenario.wacc) ^ 10 :=
  runDcf_terminal_spec testInput (referenceResult testInput)
    (runDcf_eval testInput
      (by norm_num [validateScenarioInput, boundedChecks, checkBounds, testInput])
      (by norm_num [testInput]) (by norm_num [testInput]) (by norm_num [testInput]))

/-- C8: for every `DcfInput` whose scenario validates, `runDcf` throws
the "must be positive" error iff `currentRevenue <= 0` or
`sharesOutstanding <= 0` or `currentPrice <= 0` (fail-fast, no partial
result), and returns a result when all three are positive. -/
theorem runDcf_mustBePositive_iff (i : DcfInput)
    (hv : validateScenarioInput i.scenario = .ok ()) :
    ((runDcf i = .error .mustBePositive) ↔
      (i.currentRevenue ≤ 0 ∨ i.sharesOutstanding ≤ 0 ∨ i.currentPrice ≤ 0)) ∧
    (0 < i.currentRevenue → 0 < i.sharesOutstanding → 0 < i.currentPrice →
      ∃ r, runDcf i = .ok r) := by
  constructor
  · unfold runDcf
    rw [hv]
    by_cases hcond : i.currentRevenue ≤ 0 ∨ i.sharesOutstanding ≤ 0 ∨ i.currentPrice ≤ 0
    · rw [if_pos hcond]
      simpa using hcond
    · rw [if_neg hcond]
      simpa using hcond
  · intro hr hs hp
    exact ⟨referenceResult i, runDcf_eval i hv hr hs hp⟩

/-- A valid-scenario input whose current price is not positive. -/
def nonPositivePriceInput : DcfInput := { testInput with currentPrice := 0 }

/-- Witness for C8: zero current price triggers the positivity error. -/
theorem runDcf_mustBePositive_iff_witness :
    runDcf nonPositivePriceInput = .error .mustBePositive :=
  (runDcf_mustBePositive_iff nonPositivePriceInput
    (by norm_num [validateScenarioInput, boundedChecks, checkBounds,
      nonPositivePriceInput, testInput])).1.mpr
    (by norm_num [nonPositivePriceInput, testInput])

/-- C9: for in-range scenarios with `wacc > terminalGrowth` and positive
market inputs, `runDcf` returns a well-defined `fairValuePerShare`: it is
the genuine quotient `(enterpriseValue - netDebt) / sharesOutstanding`
and every denominator used on the way (`sharesOutstanding`,
`wacc - terminalGrowth`, `1 + wacc`) is nonzero. -/
theorem runDcf_fairValue_welldefined (i : DcfInput)
    (hin : scenarioInRange i.scenario)
    (hwt : i.scenario.terminalGrowth < i.scenario.wacc)
    (hr : 0 < i.currentRevenue) (hs : 0 < i.sharesOutstanding)
    (hp : 0 < i.currentPrice) :
    ∃ r, runDcf i = .ok r ∧
      r.fairValuePerShare = (r.enterpriseValue - i.netDebt) / i.sharesOutstanding ∧
      i.sharesOutstanding ≠ 0 ∧
      i.scenario.wacc - i.scenario.terminalGrowth ≠ 0 ∧
      (1 : ℚ) + i.scenario.wacc ≠ 0 := by
  have hv := validate_ok_of_inRange i.scenario hin hwt
  refine ⟨referenceResult i, runDcf_eval i hv hr hs hp, ?_, hs.ne', sub_ne_zero.mpr hwt.ne', ?_⟩
  · simp [referenceResult]
  · have hw : (0.03 : ℚ) ≤ i.scenario.wacc := hin.2.2.2.2.2.2.2.2.2.2.1
    intro hzero
    nlinarith [hw]

/-- Witness for C9 at a concrete input. -/
theorem runDcf_fairValue_welldefined_witness :
    ∃ r, runDcf testInput = .ok r ∧
      r.fairValuePerShare = (r.enterpriseValue - testInput.netDebt) / testInput.sharesOutstanding ∧
      testInput.sharesOutstanding ≠ 0 ∧
      testInput.scenario.wacc - testInput.scenario.terminalGrowth ≠ 0 ∧
      (1 : ℚ) + testInput.scenario.wacc ≠ 0 :=
  runDcf_fairValue_welldefined testInput
    (by norm_num [scenarioInRange, testInput]) (by norm_num [testInput])
    (by norm_num [testInput]) (by norm_num [testInput]) (by norm_num [testInput])

/-- C10: `runDcf` never validates `mosPercent`: for any rational
`mosPercent` whatsoever, an otherwise-valid input yields no error and the
result uses the unvalidated value via
`fairValueAfterMos = fairValuePerShare * (1 - mosPercent / 100)`. -/
theorem runDcf_mos_unvalidated (i : DcfInput)
    (hv : validateScenarioInput i.scenario = .ok ())
    (hr : 0 < i.currentRevenue) (hs : 0 < i.sharesOutstanding)
    (hp : 0 < i.currentPrice) :
    ∃ r, runDcf i = .ok r ∧
      r.fairValueAfterMos = r.fairValuePerShare * (1 - i.mosPercent / 100) :=
  ⟨referenceResult i, runDcf_eval i hv hr hs hp, by simp [referenceResult]⟩

/-- A valid input with `mosPercent = 150`, outside the declared `[0, 80]`. -/
def highMosInput : DcfInput := { testInput with mosPercent := 150 }

/-- Witness for C10: a margin of safety above 80 percent is accepted and
used as-is (making `fairValueAfterMos` negative). -/
theorem runDcf_mos_unvalidated_witness :
    (80 : ℚ) < highMosInput.mosPercent ∧
    ∃ r, runDcf highMosInput = .ok r ∧
      r.fairValueAfterMos = r.fairValuePerShare * (1 - highMosInput.mosPercent / 100) :=
  ⟨by norm_num [highMosInput, testInput],
   runDcf_mos_unvalidated highMosInput
    (by norm_num [validateScenarioInput, boundedChecks, checkBounds, highMosInput, testInput])
    (by norm_num [highMosInput, testInput]) (by norm_num [highMosInput, testInput])
    (by norm_num [highMosInput, testInput])⟩

/-! ## Scenario derivation claims (C4, C5, C6, C7) -/

theorem clamp_le (value lo hi : ℚ) : clamp value lo hi ≤ hi := min_le_left _ _

theorem le_clamp (value lo hi : ℚ) (h : lo ≤ hi) : lo ≤ clamp value lo hi :=
  le_min h (le_max_left _ _)

theorem clamp_eq_of_mem (value lo hi : ℚ) (h1 : lo ≤ value) (h2 : value ≤ hi) :
    clamp value lo hi = value := by
  simp [clamp, max_eq_right h1, min_eq_right h2]

theorem clamp_mono (a b lo hi : ℚ) (h : a ≤ b) : clamp a lo hi ≤ clamp b lo hi :=
  min_le_min le_rfl (max_le_max le_rfl h)

theorem companyBase_wacc (cagr : Option ℚ) (f : FundamentalsResponse)
    (e : AnalystEstimates) : (companyBase cagr f e).wacc = 0.095 := rfl

theorem companyBase_tg (cagr : Option ℚ) (f : FundamentalsResponse)
    (e : AnalystEstimates) : (companyBase cagr f e).terminalGrowth = 0.025 := rfl

theorem companyBull_wacc (b : ScenarioInput) :
    (companyBull b).wacc = clamp (b.wacc - 0.01) 0.03 0.3 := rfl

theorem companyBull_tg (b : ScenarioInput) :
    (companyBull b).terminalGrowth = clamp (b.terminalGrowth + 0.005) (-0.02) 0.06 := rfl

theorem companyBear_wacc (b : ScenarioInput) :
    (companyBear b).wacc = clamp (b.wacc + 0.015) 0.03 0.3 := rfl

theorem companyBear_tg (b : ScenarioInput) :
    (companyBear b).terminalGrowth = clamp (b.terminalGrowth - 0.005) (-0.02) 0.06 := rfl

theorem bull_wacc_val (cagr : Option ℚ) (f : FundamentalsResponse) (e : AnalystEstimates) :
    (companyBull (companyBase cagr f e)).wacc = 0.085 := by
  rw [companyBull_wacc, companyBase_wacc,
    show ((0.095 : ℚ) - 0.01) = 0.085 by norm_num]
  exact clamp_eq_of_mem _ _ _ (by norm_num) (by norm_num)

theorem bull_tg_val (cagr : Option ℚ) (f : FundamentalsResponse) (e : AnalystEstimates) :
    (companyBull (companyBase cagr f e)).terminalGrowth = 0.03 := by
  rw [companyBull_tg, companyBase_tg,
    show ((0.025 : ℚ) + 0.005) = 0.03 by norm_num]
  exact clamp_eq_of_mem _ _ _ (by norm_num) (by norm_num)

theorem bear_wacc_val (cagr : Option ℚ) (f : FundamentalsResponse) (e : AnalystEstimates) :
    (companyBear (companyBase cagr f e)).wacc = 0.11 := by
  rw [companyBear_wacc, companyBase_wacc,
    show ((0.095 : ℚ) + 0.015) = 0.11 by norm_num]
  exact clamp_eq_of_mem _ _ _ (by norm_num) (by norm_num)

theorem bear_tg_val (cagr : Option ℚ) (f : FundamentalsResponse) (e : AnalystEstimates) :
    (companyBear (companyBase cagr f e)).terminalGrowth = 0.02 := by
  rw [companyBear_tg, companyBase_tg,
    show ((0.025 : ℚ) - 0.005) = 0.02 by norm_num]
  exact clamp_eq_of_mem _ _ _ (by norm_num) (by norm_num)

/-- The repair step never fires: base WACC and terminal growth are fixed
literals, so bull and bear satisfy the invariant before repair. -/
theorem getCompanyScenarios_eq (rpow : ℚ → ℚ → ℚ) (f : FundamentalsResponse)
    (e : AnalystEstimates) :
    getCompanyScenarios rpow f e =
      { bull := companyBull (companyBase (computeRevenueCAGR rpow f.annual) f e)
      , base := companyBase (computeRevenueCAGR rpow f.annual) f e
      , bear := companyBear (companyBase (computeRevenueCAGR rpow f.annual) f e) } := by
  have hbull : ¬ ((companyBull (companyBase (computeRevenueCAGR rpow f.annual) f e)).wacc ≤
      (companyBull (companyBase (computeRevenueCAGR rpow f.annual) f e)).terminalGrowth) := by
    rw [bull_wacc_val, bull_tg_val]
    norm_num
  have hbear : ¬ ((companyBear (companyBase (computeRevenueCAGR rpow f.annual) f e)).wacc ≤
      (companyBear (companyBase (computeRevenueCAGR rpow f.annual) f e)).terminalGrowth) := by
    rw [bear_wacc_val, bear_tg_val]
    norm_num
  simp only [getCompanyScenarios, assembleCompanyScenarios, repairTerminalGrowth]
  rw [if_neg hbull, if_neg hbear]


theorem inRange_of_clamped (a b c d ev fv g : ℚ) :
    scenarioInRange
      ⟨clamp a (-0.5) 0.6, clamp b (-0.5) 0.4, clamp c 0 0.8, clamp d 0 0.6,
       clamp ev 0 0.9, clamp fv 0.03 0.3, clamp g (-0.02) 0.06⟩ := by
  unfold scenarioInRange
  exact ⟨le_clamp a _ _ (by norm_num), clamp_le a _ _,
    le_clamp b _ _ (by norm_num), clamp_le b _ _,
    le_clamp c _ _ (by norm_num), clamp_le c _ _,
    le_clamp d _ _ (by norm_num), clamp_le d _ _,
    le_clamp ev _ _ (by norm_num), clamp_le ev _ _,
    le_clamp fv _ _ (by norm_num), clamp_le fv _ _,
    le_clamp g _ _ (by norm_num), clamp_le g _ _⟩


theorem companyBull_inRange (b : ScenarioInput) : scenarioInRange (companyBull b) := by
  unfold companyBull
  exact inRange_of_clamped _ _ _ _ _ _ _

theorem companyBear_inRange (b : ScenarioInput) : scenarioInRange (companyBear b) := by
  unfold companyBear
  exact inRange_of_clamped _ _ _ _ _ _ _

theorem companyBase_inRange (cagr : Option ℚ) (f : FundamentalsResponse)
    (e : AnalystEstimates) : scenarioInRange (companyBase cagr f e) := by
  unfold companyBase scenarioInRange
  exact ⟨le_clamp _ _ _ (by norm_num), clamp_le _ _ _,
    le_clamp _ _ _ (by norm_num), clamp_le _ _ _,
    le_clamp _ _ _ (by norm_num), clamp_le _ _ _,
    le_clamp _ _ _ (by norm_num), clamp_le _ _ _,
    le_clamp _ _ _ (by norm_num), clamp_le _ _ _,
    by norm_num [baseWacc], by norm_num [baseWacc],
    by norm_num [baseTerminalGrowth], by norm_num [baseTerminalGrowth]⟩


/-- C4: every one of the seven fields of each of the three scenarios
returned by `getCompanyScenarios` lies within the engine's valid ranges
(section 3), and `wacc > terminalGrowth` holds for bull, base and bear,
for every fundamentals/estimates input and every `Math.pow` behaviour,
including after the post-adjustment terminal-growth repair. -/
theorem getCompanyScenarios_within_bounds (rpow : ℚ → ℚ → ℚ)
    (f : FundamentalsResponse) (e : AnalystEstimates) :
    scenarioInRange (getCompanyScenarios rpow f e).bull ∧
    scenarioInRange (getCompanyScenarios rpow f e).base ∧
    scenarioInRange (getCompanyScenarios rpow f e).bear ∧
    (getCompanyScenarios rpow f e).bull.terminalGrowth < (getCompanyScenarios rpow f e).bull.wacc ∧
    (getCompanyScenarios rpow f e).base.terminalGrowth < (getCompanyScenarios rpow f e).base.wacc ∧
    (getCompanyScenarios rpow f e).bear.terminalGrowth < (getCompanyScenarios rpow f e).bear.wacc := by
  rw [getCompanyScenarios_eq]
  have hbull : (companyBull (companyBase (computeRevenueCAGR rpow f.annual) f e)).terminalGrowth <
      (companyBull (companyBase (computeRevenueCAGR rpow f.annual) f e)).wacc := by
    rw [bull_wacc_val, bull_tg_val]
    norm_num
  have hbase : (companyBase (computeRevenueCAGR rpow f.annual) f e).terminalGrowth <
      (companyBase (computeRevenueCAGR rpow f.annual) f e).wacc := by
    rw [companyBase_wacc, companyBase_tg]
    norm_num
  have hbear : (companyBear (companyBase (computeRevenueCAGR rpow f.annual) f e)).terminalGrowth <
      (companyBear (companyBase (computeRevenueCAGR rpow f.annual) f e)).wacc := by
    rw [bear_wacc_val, bear_tg_val]
    norm_num
  exact ⟨companyBull_inRange _, companyBase_inRange _ _ _, companyBear_inRange _,
    hbull, hbase, hbear⟩


theorem clamp_le_of_le (x b lo hi : ℚ) (hlo : lo ≤ b) (hhi : b ≤ hi) (h : x ≤ b) :
    clamp x lo hi ≤ b := by
  calc clamp x lo hi ≤ clamp b lo hi := clamp_mono x b lo hi h
    _ = b := clamp_eq_of_mem b lo hi hlo hhi

theorem le_clamp_of_le (x b lo hi : ℚ) (hlo : lo ≤ b) (hhi : b ≤ hi) (h : b ≤ x) :
    b ≤ clamp x lo hi := by
  calc b = clamp b lo hi := (clamp_eq_of_mem b lo hi hlo hhi).symm
    _ ≤ clamp x lo hi := clamp_mono b x lo hi h

theorem clamp_nonneg (x lo hi : ℚ) (hx : 0 ≤ x) (hhi : 0 ≤ hi) : 0 ≤ clamp x lo hi :=
  le_min hhi (le_trans hx (le_max_right _ _))

theorem companyBase_g15 (cagr : Option ℚ) (f : FundamentalsResponse) (e : AnalystEstimates) :
    (companyBase cagr f e).revenueGrowthYears1to5 = clamp (baseGrowthY1to5 cagr e) (-0.5) 0.6 := rfl

theorem companyBase_g610 (cagr : Option ℚ) (f : FundamentalsResponse) (e : AnalystEstimates) :
    (companyBase cagr f e).revenueGrowthYears6to10 = clamp (baseGrowthY6to10 cagr e) (-0.5) 0.4 := rfl

theorem companyBase_margin (cagr : Option ℚ) (f : FundamentalsResponse) (e : AnalystEstimates) :
    (companyBase cagr f e).operatingMarginTarget = clamp (baseMargin f.annual e) 0 0.8 := rfl

theorem companyBase_tax (cagr : Option ℚ) (f : FundamentalsResponse) (e : AnalystEstimates) :
    (companyBase cagr f e).taxRate = clamp ((deriveEffectiveTaxRate f.annual).getD 0.22) 0 0.6 := rfl

theorem companyBase_reinv (cagr : Option ℚ) (f : FundamentalsResponse) (e : AnalystEstimates) :
    (companyBase cagr f e).reinvestmentRate =
      clamp ((deriveReinvestmentRate f.annual e).getD 0.30) 0 0.9 := rfl

theorem companyBull_g15 (b : ScenarioInput) :
    (companyBull b).revenueGrowthYears1to5 = clamp (b.revenueGrowthYears1to5 * 1.25) (-0.5) 0.6 := rfl

theorem companyBull_g610 (b : ScenarioInput) :
    (companyBull b).revenueGrowthYears6to10 = clamp (b.revenueGrowthYears6to10 * 1.25) (-0.5) 0.4 := rfl

theorem companyBull_margin (b : ScenarioInput) :
    (companyBull b).operatingMarginTarget = clamp (b.operatingMarginTarget + 0.03) 0 0.8 := rfl

theorem companyBull_tax (b : ScenarioInput) :
    (companyBull b).taxRate = clamp (b.taxRate - 0.02) 0 0.6 := rfl

theorem companyBull_reinv (b : ScenarioInput) :
    (companyBull b).reinvestmentRate = clamp (b.reinvestmentRate - 0.05) 0 0.9 := rfl

theorem companyBear_g15 (b : ScenarioInput) :
    (companyBear b).revenueGrowthYears1to5 = clamp (b.revenueGrowthYears1to5 * 0.5) (-0.5) 0.6 := rfl

theorem companyBear_g610 (b : ScenarioInput) :
    (companyBear b).revenueGrowthYears6to10 = clamp (b.revenueGrowthYears6to10 * 0.4) (-0.5) 0.4 := rfl

theorem companyBear_margin (b : ScenarioInput) :
    (companyBear b).operatingMarginTarget = clamp (b.operatingMarginTarget - 0.04) 0 0.8 := rfl

theorem companyBear_tax (b : ScenarioInput) :
    (companyBear b).taxRate = clamp (b.taxRate + 0.03) 0 0.6 := rfl

theorem companyBear_reinv (b : ScenarioInput) :
    (companyBear b).reinvestmentRate = clamp (b.reinvestmentRate + 0.10) 0 0.9 := rfl


/-- C5 (amended): the ScenarioSet returned by `getCompanyScenarios`
satisfies bull >= base >= bear on `operatingMarginTarget` and
bull <= base <= bear on `wacc`, `taxRate` and `reinvestmentRate`
unconditionally, and the bull >= base >= bear orderings on
`revenueGrowthYears1to5` and `revenueGrowthYears6to10` whenever the
derived (pre-clamp) base growth is nonnegative. -/
theorem scenario_ordering_amended (rpow : ℚ → ℚ → ℚ) (f : FundamentalsResponse)
    (e : AnalystEstimates) :
    ((getCompanyScenarios rpow f e).bear.operatingMarginTarget ≤
       (getCompanyScenarios rpow f e).base.operatingMarginTarget ∧
     (getCompanyScenarios rpow f e).base.operatingMarginTarget ≤
       (getCompanyScenarios rpow f e).bull.operatingMarginTarget) ∧
    ((getCompanyScenarios rpow f e).bull.wacc ≤ (getCompanyScenarios rpow f e).base.wacc ∧
     (getCompanyScenarios rpow f e).base.wacc ≤ (getCompanyScenarios rpow f e).bear.wacc) ∧
    ((getCompanyScenarios rpow f e).bull.taxRate ≤ (getCompanyScenarios rpow f e).base.taxRate ∧
     (getCompanyScenarios rpow f e).base.taxRate ≤ (getCompanyScenarios rpow f e).bear.taxRate) ∧
    ((getCompanyScenarios rpow f e).bull.reinvestmentRate ≤
       (getCompanyScenarios rpow f e).base.reinvestmentRate ∧
     (getCompanyScenarios rpow f e).base.reinvestmentRate ≤
       (getCompanyScenarios rpow f e).bear.reinvestmentRate) ∧
    (0 ≤ baseGrowthY1to5 (computeRevenueCAGR rpow f.annual) e →
      ((getCompanyScenarios rpow f e).bear.revenueGrowthYears1to5 ≤
         (getCompanyScenarios rpow f e).base.revenueGrowthYears1to5 ∧
       (getCompanyScenarios rpow f e).base.revenueGrowthYears1to5 ≤
         (getCompanyScenarios rpow f e).bull.revenueGrowthYears1to5 ∧
       (getCompanyScenarios rpow f e).bear.revenueGrowthYears6to10 ≤
         (getCompanyScenarios rpow f e).base.revenueGrowthYears6to10 ∧
       (getCompanyScenarios rpow f e).base.revenueGrowthYears6to10 ≤
         (getCompanyScenarios rpow f e).bull.revenueGrowthYears6to10)) := by
  rw [getCompanyScenarios_eq]
  have hm0 : 0 ≤ (companyBase (computeRevenueCAGR rpow f.annual) f e).operatingMarginTarget := by
    rw [companyBase_margin]
    exact le_clamp _ _ _ (by norm_num)
  have hm8 : (companyBase (computeRevenueCAGR rpow f.annual) f e).operatingMarginTarget ≤ 0.8 := by
    rw [companyBase_margin]
    exact clamp_le _ _ _
  have ht0 : 0 ≤ (companyBase (computeRevenueCAGR rpow f.annual) f e).taxRate := by
    rw [companyBase_tax]
    exact le_clamp _ _ _ (by norm_num)
  have ht6 : (companyBase (computeRevenueCAGR rpow f.annual) f e).taxRate ≤ 0.6 := by
    rw [companyBase_tax]
    exact clamp_le _ _ _
  have hr0 : 0 ≤ (companyBase (computeRevenueCAGR rpow f.annual) f e).reinvestmentRate := by
    rw [companyBase_reinv]
    exact le_clamp _ _ _ (by norm_num)
  have hr9 : (companyBase (computeRevenueCAGR rpow f.annual) f e).reinvestmentRate ≤ 0.9 := by
    rw [companyBase_reinv]
    exact clamp_le _ _ _
  refine ⟨⟨?_, ?_⟩, ⟨?_, ?_⟩, ⟨?_, ?_⟩, ⟨?_, ?_⟩, ?_⟩
  · rw [companyBear_margin]
    exact clamp_le_of_le _ _ _ _ hm0 hm8 (by linarith)
  · rw [companyBull_margin]
    exact le_clamp_of_le _ _ _ _ hm0 hm8 (by linarith)
  · rw [bull_wacc_val, companyBase_wacc]
    norm_num
  · rw [bear_wacc_val, companyBase_wacc]
    norm_num
  · rw [companyBull_tax]
    exact clamp_le_of_le _ _ _ _ ht0 ht6 (by linarith)
  · rw [companyBear_tax]
    exact le_clamp_of_le _ _ _ _ ht0 ht6 (by linarith)
  · rw [companyBull_reinv]
    exact clamp_le_of_le _ _ _ _ hr0 hr9 (by linarith)
  · rw [companyBear_reinv]
    exact le_clamp_of_le _ _ _ _ hr0 hr9 (by linarith)
  · intro hg
    have hg6 : 0 ≤ baseGrowthY6to10 (computeRevenueCAGR rpow f.annual) e := by
      rw [baseGrowthY6to10]
      nlinarith
    have hb0 : 0 ≤ (companyBase (computeRevenueCAGR rpow f.annual) f e).revenueGrowthYears1to5 := by
      rw [companyBase_g15]
      exact clamp_nonneg _ _ _ hg (by norm_num)
    have hblo : (-0.5 : ℚ) ≤ (companyBase (computeRevenueCAGR rpow f.annual) f e).revenueGrowthYears1to5 := by
      rw [companyBase_g15]
      exact le_clamp _ _ _ (by norm_num)
    have hbhi : (companyBase (computeRevenueCAGR rpow f.annual) f e).revenueGrowthYears1to5 ≤ 0.6 := by
      rw [companyBase_g15]
      exact clamp_le _ _ _
    have hc0 : 0 ≤ (companyBase (computeRevenueCAGR rpow f.annual) f e).revenueGrowthYears6to10 := by
      rw [companyBase_g610]
      exact clamp_nonneg _ _ _ hg6 (by norm_num)
    have hclo : (-0.5 : ℚ) ≤ (companyBase (computeRevenueCAGR rpow f.annual) f e).revenueGrowthYears6to10 := by
      rw [companyBase_g610]
      exact le_clamp _ _ _ (by norm_num)
    have hchi : (companyBase (computeRevenueCAGR rpow f.annual) f e).revenueGrowthYears6to10 ≤ 0.4 := by
      rw [companyBase_g610]
      exact clamp_le _ _ _
    refine ⟨?_, ?_, ?_, ?_⟩
    · rw [companyBear_g15]
      exact clamp_le_of_le _ _ _ _ hblo hbhi (by nlinarith)
    · rw [companyBull_g15]
      exact le_clamp_of_le _ _ _ _ hblo hbhi (by nlinarith)
    · rw [companyBear_g610]
      exact clamp_le_of_le _ _ _ _ hclo hchi (by nlinarith)
    · rw [companyBull_g610]
      exact le_clamp_of_le _ _ _ _ hclo hchi (by nlinarith)


def anyRpow : ℚ → ℚ → ℚ := fun _ _ => 0

def emptyFundamentals : FundamentalsResponse := ⟨[]⟩

def negGrowthEstimates : AnalystEstimates :=
  { revenueGrowthNextYear := none, revenueGrowth5Year := some (-0.2)
  , earningsGrowthNextYear := none, targetMeanPrice := none, numberOfAnalysts := none
  , operatingMargins := none, revenueGrowthTTM := none, freeCashflow := none
  , totalRevenue := none }

def posGrowthEstimates : AnalystEstimates :=
  { revenueGrowthNextYear := none, revenueGrowth5Year := some 0.10
  , earningsGrowthNextYear := none, targetMeanPrice := none, numberOfAnalysts := none
  , operatingMargins := none, revenueGrowthTTM := none, freeCashflow := none
  , totalRevenue := none }

/-- Counterexample to C5 as stated: with analyst 5-year growth -0.2 (and
no other data), bull's `revenueGrowthYears1to5` is -0.25 < base's -0.2,
so bull >= base fails on a growth field. -/
theorem scenario_ordering_cex :
    ¬ ((getCompanyScenarios anyRpow emptyFundamentals negGrowthEstimates).base.revenueGrowthYears1to5 ≤
       (getCompanyScenarios anyRpow emptyFundamentals negGrowthEstimates).bull.revenueGrowthYears1to5) := by
  rw [getCompanyScenarios_eq]
  show ¬ ((companyBase (computeRevenueCAGR anyRpow emptyFundamentals.annual)
      emptyFundamentals negGrowthEstimates).revenueGrowthYears1to5 ≤
    (companyBull (companyBase (computeRevenueCAGR anyRpow emptyFundamentals.annual)
      emptyFundamentals negGrowthEstimates)).revenueGrowthYears1to5)
  rw [companyBull_g15, companyBase_g15]
  rw [show baseGrowthY1to5 (computeRevenueCAGR anyRpow emptyFundamentals.annual)
      negGrowthEstimates = -0.2 from rfl]
  rw [clamp_eq_of_mem (-0.2) (-0.5) 0.6 (by norm_num) (by norm_num)]
  rw [show ((-0.2 : ℚ) * 1.25) = -0.25 by norm_num]
  rw [clamp_eq_of_mem (-0.25) (-0.5) 0.6 (by norm_num) (by norm_num)]
  norm_num

/-- Witness for the amended C5 at a concrete positive-growth input. -/
theorem scenario_ordering_amended_witness :
    (getCompanyScenarios anyRpow emptyFundamentals posGrowthEstimates).bear.revenueGrowthYears1to5 ≤
      (getCompanyScenarios anyRpow emptyFundamentals posGrowthEstimates).base.revenueGrowthYears1to5 ∧
    (getCompanyScenarios anyRpow emptyFundamentals posGrowthEstimates).base.revenueGrowthYears1to5 ≤
      (getCompanyScenarios anyRpow emptyFundamentals posGrowthEstimates).bull.revenueGrowthYears1to5 ∧
    (getCompanyScenarios anyRpow emptyFundamentals posGrowthEstimates).bear.revenueGrowthYears6to10 ≤
      (getCompanyScenarios anyRpow emptyFundamentals posGrowthEstimates).base.revenueGrowthYears6to10 ∧
    (getCompanyScenarios anyRpow emptyFundamentals posGrowthEstimates).base.revenueGrowthYears6to10 ≤
      (getCompanyScenarios anyRpow emptyFundamentals posGrowthEstimates).bull.revenueGrowthYears6to10 :=
  (scenario_ordering_amended anyRpow emptyFundamentals posGrowthEstimates).2.2.2.2
    (by rw [show baseGrowthY1to5 (computeRevenueCAGR anyRpow emptyFundamentals.annual)
        posGrowthEstimates = 0.10 from rfl]
        norm_num)


/-- The length guard of `computeRevenueCAGR` protects its element
accesses: the fallible variant never reaches the error branch. -/
theorem computeRevenueCAGRE_ok (rpow : ℚ → ℚ → ℚ) (annual : List AnnualFundamentalPoint) :
    computeRevenueCAGRE rpow annual = .ok (computeRevenueCAGR rpow annual) := by
  unfold computeRevenueCAGRE computeRevenueCAGR
  by_cases h : annual.length < 2
  · rw [if_pos h, if_pos h]
  · rw [if_neg h, if_neg h]
    obtain ⟨x, hx⟩ : ∃ x, annual.head? = some x := by
      cases annual with
      | nil => simp at h
      | cons a t => exact ⟨a, rfl⟩
    obtain ⟨y, hy⟩ : ∃ y, annual.getLast? = some y := by
      have hne : annual ≠ [] := by
        intro hnil
        rw [hnil] at h
        simp at h
      exact Option.isSome_iff_exists.mp (List.getLast?_isSome.mpr hne)
    rw [hx, hy]
    by_cases hrev : y.revenue ≤ 0 ∨ x.revenue ≤ 0 <;> simp [hrev]

/-- C7: `getCompanyScenarios` is total and never throws: the variant in
which the unguarded element accesses of `computeRevenueCAGR` surface as
errors returns `.ok` of the pure result on every input (all-null
estimates and empty fundamentals included). -/
theorem getCompanyScenarios_total (rpow : ℚ → ℚ → ℚ) (f : FundamentalsResponse)
    (e : AnalystEstimates) :
    getCompanyScenariosE rpow f e = .ok (getCompanyScenarios rpow f e) := by
  unfold getCompanyScenariosE getCompanyScenarios
  rw [computeRevenueCAGRE_ok]
  rfl

/-- C6: the pre-clamp base `revenueGrowthYears1to5` is the first
non-null of analyst 5-year growth, analyst next-year growth, the
historical CAGR `(newest.revenue / oldest.revenue) ^ (1 / (N - 1)) - 1`
(defined only for N >= 2 and positive first/last revenues), TTM growth,
and the literal 0.05; and the pre-clamp `revenueGrowthYears6to10` is
that value times 0.6. -/
theorem baseGrowth_fallback_spec (rpow : ℚ → ℚ → ℚ) (f : FundamentalsResponse)
    (e : AnalystEstimates) :
    ((getCompanyScenarios rpow f e).base.revenueGrowthYears1to5 =
      clamp (baseGrowthY1to5 (computeRevenueCAGR rpow f.annual) e) (-0.5) 0.6) ∧
    (baseGrowthY6to10 (computeRevenueCAGR rpow f.annual) e =
      baseGrowthY1to5 (computeRevenueCAGR rpow f.annual) e * 0.6) ∧
    (∀ v, e.revenueGrowth5Year = some v →
      baseGrowthY1to5 (computeRevenueCAGR rpow f.annual) e = v) ∧
    (e.revenueGrowth5Year = none → ∀ v, e.revenueGrowthNextYear = some v →
      baseGrowthY1to5 (computeRevenueCAGR rpow f.annual) e = v) ∧
    (e.revenueGrowth5Year = none → e.revenueGrowthNextYear = none →
      ∀ cg, computeRevenueCAGR rpow f.annual = some cg →
        baseGrowthY1to5 (computeRevenueCAGR rpow f.annual) e = cg) ∧
    (e.revenueGrowth5Year = none → e.revenueGrowthNextYear = none →
      computeRevenueCAGR rpow f.annual = none → ∀ v, e.revenueGrowthTTM = some v →
        baseGrowthY1to5 (computeRevenueCAGR rpow f.annual) e = v) ∧
    (e.revenueGrowth5Year = none → e.revenueGrowthNextYear = none →
      computeRevenueCAGR rpow f.annual = none → e.revenueGrowthTTM = none →
      baseGrowthY1to5 (computeRevenueCAGR rpow f.annual) e = 0.05) ∧
    (∀ pFirst pLast, 2 ≤ f.annual.length → f.annual.head? = some pFirst →
      f.annual.getLast? = some pLast →
      computeRevenueCAGR rpow f.annual =
        if pLast.revenue ≤ 0 ∨ pFirst.revenue ≤ 0 then none
        else some (rpow (pFirst.revenue / pLast.revenue)
          (1 / ((f.annual.length - 1 : ℕ) : ℚ)) - 1)) ∧
    (f.annual.length < 2 → computeRevenueCAGR rpow f.annual = none) := by
  refine ⟨?_, rfl, ?_, ?_, ?_, ?_, ?_, ?_, ?_⟩
  · rw [getCompanyScenarios_eq]
    exact companyBase_g15 _ _ _
  · intro v h5
    unfold baseGrowthY1to5
    rw [h5]
    rfl
  · intro h5 v hn
    unfold baseGrowthY1to5
    rw [h5, hn]
    rfl
  · intro h5 hn cg hc
    unfold baseGrowthY1to5
    rw [h5, hn, hc]
    rfl
  · intro h5 hn hc v ht
    unfold baseGrowthY1to5
    rw [h5, hn, hc, ht]
    rfl
  · intro h5 hn hc ht
    unfold baseGrowthY1to5
    rw [h5, hn, hc, ht]
    rfl
  · intro pFirst pLast hlen hhead hlast
    unfold computeRevenueCAGR
    rw [if_neg (not_lt.mpr hlen), hhead, hlast]
  · intro hlen
    unfold computeRevenueCAGR
    rw [if_pos hlen]


def allNoneEstimates : AnalystEstimates :=
  { revenueGrowthNextYear := none, revenueGrowth5Year := none
  , earningsGrowthNextYear := none, targetMeanPrice := none, numberOfAnalysts := none
  , operatingMargins := none, revenueGrowthTTM := none, freeCashflow := none
  , totalRevenue := none }

def twoPointFundamentals : FundamentalsResponse :=
  ⟨[ { year := 2024, revenue := 110, ebit := 20, netIncome := 15, fcf := 12
     , operatingMargin := 0.18, netMargin := 0.13 }
   , { year := 2023, revenue := 100, ebit := 18, netIncome := 14, fcf := 11
     , operatingMargin := 0.18, netMargin := 0.14 } ]⟩

/-- Witness for C6: the analyst-estimate branch and the CAGR branch at
concrete inputs. -/
theorem baseGrowth_fallback_spec_witness :
    baseGrowthY1to5 (computeRevenueCAGR anyRpow emptyFundamentals.annual) posGrowthEstimates = 0.10 ∧
    baseGrowthY1to5 (computeRevenueCAGR anyRpow twoPointFundamentals.annual) allNoneEstimates = -1 :=
  ⟨(baseGrowth_fallback_spec anyRpow emptyFundamentals posGrowthEstimates).2.2.1 0.10 rfl,
   (baseGrowth_fallback_spec anyRpow twoPointFundamentals allNoneEstimates).2.2.2.2.1 rfl rfl
     (-1) (by norm_num [computeRevenueCAGR, anyRpow, twoPointFundamentals, List.getLast?])⟩

end StockValuation
